import Mathlib

/-!
Verification of the biobasis_merge time-grid reconciliation engine
(`src/python/biobasis_merge_py/merge_logic.py`, `parse_header.py`) and of the
meteorological derivation engine (`src/python/biobasis_merge_py/meteorology.py`).

Embedding conventions for the merge engine:

* A timestamp is a natural number of minutes (timestamps are opaque ordered
  values in the pipeline; the calendar only enters through the grid
  construction, where a calendar date is a day index and `1440` minutes make a
  day, so `day d at hh:mm` is `1440*d + 60*hh + mm`).
* A data cell is `Option ℚ`: `none` is pandas `NaN` ("missing"), `some q` a
  numeric value.  NaN-propagation of float arithmetic is modelled by `Option`
  strictness.
* `Rec` is one row: the value of the designated timestamp column in `ts`, and
  the remaining cells as a `(column name, cell)` association list in `vals`.
* `DF` is a dataframe: all column names (the designated timestamp column's
  name among them) in `cols`, and the rows.  Frames merged together in the
  repository share one header schema; rows keep their own cells and cells of
  columns absent from a record are simply absent.
* The distinct `ValueError`s of the source are the constructors of
  `MergeError`: `emptyInput` is "No dataframes provided for merging" /
  "No dataframes to concatenate", `missingField` is "Timestamp column '...'
  not found in dataframe", `noColumns` is "No columns found in header"
  (from `get_timestamp_column_info`), and `duplicateAxis` is the pandas
  "cannot reindex on an axis with duplicate labels" error that
  `DataFrame.reindex` raises on a non-unique index.
-/

namespace BiobasisMerge

/-- One observation row: the designated timestamp column's value, plus the
remaining `(column name, cell)` pairs; a `none` cell is a missing value. -/
structure Rec where
  ts : ℕ
  vals : List (String × Option ℚ)
deriving DecidableEq, Repr

/-- A dataframe: all column names (timestamp column included) and the rows. -/
structure DF where
  cols : List String
  rows : List Rec
deriving DecidableEq, Repr

/-- The distinct errors raised by the merge pipeline (see module docstring). -/
inductive MergeError where
  | emptyInput
  | missingField
  | noColumns
  | duplicateAxis
deriving DecidableEq, Repr

/-- Embeds `get_timestamp_column_info` (parse_header.py lines 77-90): the first
known timestamp-name alias present among the column names, else the first
column, else the "No columns found in header" error. -/
def get_timestamp_column_info (cols : List String) : Except MergeError String :=
  match ["TIMESTAMP", "timestamp", "DateTime", "datetime", "TIME", "time"].find?
      (fun c => cols.contains c) with
  | some c => .ok c
  | none =>
    match cols with
    | [] => .error .noColumns
    | c :: _ => .ok c

/-- The union of the column schemas in order of first appearance, as
`pd.concat` builds the concatenated frame's columns. -/
def unionCols (first : DF) (rest : List DF) : List String :=
  rest.foldl (fun acc d' => acc ++ d'.cols.filter (fun c => !acc.contains c)) first.cols

/-- Embeds `concatenate_dataframes` (merge_logic.py lines 12-21): error on an
empty list, otherwise all rows in input order under the union of the column
schemas. -/
def concatenate_dataframes (dfs : List DF) : Except MergeError DF :=
  match dfs with
  | [] => .error .emptyInput
  | d :: rest => .ok ⟨unionCols d rest, (dfs.map DF.rows).flatten⟩

/-- Insert a row into a list ascending by `ts`, in front of the first row of
timestamp `≥` its own. -/
def insertRow (r : Rec) : List Rec → List Rec
  | [] => [r]
  | s :: l => if r.ts ≤ s.ts then r :: s :: l else s :: insertRow r l

/-- The embedding's sort of rows ascending by timestamp (an insertion sort).
The source's `df.sort_values(by=timestamp_col)` sorts with pandas' default
`kind='quicksort'` (numpy introsort), which guarantees a permutation of the
rows sorted by the key but, being unstable, fixes no particular order among
rows with equal timestamps; an executable embedding necessarily fixes one
definite sorted permutation, so only consequences that hold for every
sorting algorithm — sortedness, being a permutation, membership — may be
relied on, and the theorems below use nothing else about `sortRows`. -/
def sortRows : List Rec → List Rec
  | [] => []
  | r :: l => insertRow r (sortRows l)

/-- Embeds `sort_by_timestamp` (merge_logic.py lines 24-32): guard on the
presence of the timestamp column, then sort ascending by it (see `sortRows`
for the equal-timestamp order caveat). -/
def sort_by_timestamp (df : DF) (tsCol : String) : Except MergeError DF :=
  if df.cols.contains tsCol then .ok ⟨df.cols, sortRows df.rows⟩
  else .error .missingField

/-- Keep each row whose timestamp has not been seen before (`seen` is the
accumulator of already-kept timestamps). -/
def dedupAux (seen : List ℕ) : List Rec → List Rec
  | [] => []
  | r :: l => if r.ts ∈ seen then dedupAux seen l else r :: dedupAux (r.ts :: seen) l

/-- First-occurrence deduplication by timestamp, as
`drop_duplicates(subset=[timestamp_col], keep='first')` does. -/
def dedupRows (l : List Rec) : List Rec := dedupAux [] l

set_option linter.unusedVariables false in
/-- Embeds `remove_duplicates` (merge_logic.py lines 35-46): drop rows whose
timestamp already occurred, keeping the first occurrence; the column argument
mirrors the source's signature (`subset=[timestamp_col]`). -/
def remove_duplicates (df : DF) (tsCol : String) : DF :=
  ⟨df.cols, dedupRows df.rows⟩

/-- Embeds `pd.date_range(start, end, freq)` on minute timestamps: all
timestamps `start + freq*k` up to `end` inclusive; empty when `end < start`. -/
def date_range (s e freq : ℕ) : List ℕ :=
  if s ≤ e then (List.range ((e - s) / freq + 1)).map (fun k => s + freq * k) else []

/-- Embeds `create_complete_time_index` (merge_logic.py lines 49-70) at the
canonical 30-minute frequency (the source's default `'30T'`, the only
frequency the repository uses): day `d0` at 00:00:00 through day `d1` at
23:30:00. -/
def create_complete_time_index (d0 d1 : ℕ) : List ℕ :=
  date_range (1440 * d0) (1440 * d1 + 1410) 30

/-- The row a reindexed frame carries at a grid slot no input row matches:
the slot's timestamp, and one missing cell per non-timestamp column of the
frame. -/
def blankRow (cols : List String) (tsCol : String) (t : ℕ) : Rec :=
  ⟨t, (cols.filter (fun c => c ≠ tsCol)).map (fun c => (c, none))⟩

/-- One output row per grid slot: the input row carrying exactly the slot's
timestamp if there is one, otherwise an all-missing row. -/
def reindexRows (rows : List Rec) (cols : List String) (tsCol : String)
    (d0 d1 : ℕ) : List Rec :=
  (create_complete_time_index d0 d1).map (fun t =>
    match rows.find? (fun r => r.ts == t) with
    | some r => r
    | none => blankRow cols tsCol t)

/-- Embeds `reindex_to_complete_grid` (merge_logic.py lines 73-96): guard on
the timestamp column, then (as `set_index` + `reindex` do) fail on a
duplicated timestamp axis, else emit one row per grid slot — the unique input
row carrying exactly that timestamp if there is one, otherwise a row whose
cells, one per non-timestamp column of the frame, are all missing. -/
def reindex_to_complete_grid (df : DF) (tsCol : String) (d0 d1 : ℕ) :
    Except MergeError DF :=
  if df.cols.contains tsCol then
    if (df.rows.map Rec.ts).Nodup then
      .ok ⟨df.cols, reindexRows df.rows df.cols tsCol d0 d1⟩
    else .error .duplicateAxis
  else .error .missingField

/-- Embeds `merge_daily_data` (merge_logic.py lines 99-130): empty-input
guard, timestamp column from the first frame's schema, then concatenate,
sort, deduplicate and reindex onto the complete grid in that fixed order. -/
def merge_daily_data (dfs : List DF) (d0 d1 : ℕ) : Except MergeError DF :=
  match dfs with
  | [] => .error .emptyInput
  | first :: _ =>
    match get_timestamp_column_info first.cols with
    | .error e => .error e
    | .ok tsCol =>
      match concatenate_dataframes dfs with
      | .error e => .error e
      | .ok conc =>
        match sort_by_timestamp conc tsCol with
        | .error e => .error e
        | .ok sorted => reindex_to_complete_grid (remove_duplicates sorted tsCol) tsCol d0 d1

/-- The summary record built by `get_merge_summary`; `date_range` is the pair
of range endpoints the source renders as a string. -/
structure MergeSummary where
  total_rows : ℕ
  expected_rows : ℕ
  missing_timestamps : ℕ
  data_coverage : ℚ
  timestamp_column : String
  date_range : ℕ × ℕ
deriving DecidableEq, Repr

/-- A row counts as a missing grid slot when every cell it has in the given
non-timestamp columns is missing (`df[data_cols].isnull().all(axis=1)`). -/
def rowAllMissing (dataCols : List String) (r : Rec) : Bool :=
  dataCols.all (fun c => ((r.vals.lookup c).getD none).isNone)

/-- Embeds `get_merge_summary` (merge_logic.py lines 133-152). -/
def get_merge_summary (df : DF) (tsCol : String) (d0 d1 : ℕ) : MergeSummary :=
  let expected := (create_complete_time_index d0 d1).length
  let dataCols := df.cols.filter (fun c => c ≠ tsCol)
  let missing := (df.rows.filter (rowAllMissing dataCols)).length
  { total_rows := df.rows.length
    expected_rows := expected
    missing_timestamps := missing
    data_coverage := ((df.rows.length : ℚ) - missing) / expected * 100
    timestamp_column := tsCol
    date_range := (d0, d1) }

/-!
Embedding of the meteorological derivation engine (`meteorology.py`).

Python float arithmetic is modelled exactly over `ℝ`; a float `NaN`
("missing") is `none` in `Option ℝ`, and the NaN-strictness of float
arithmetic (any operation with a NaN operand yields NaN) is modelled by
`Option` strictness in the lifted wrappers below.  The bounded `for` loop of
the wet-bulb solver is embedded by structural recursion on the number of
remaining iterations, which also witnesses its termination.
-/

noncomputable section

/-- Embeds `calculate_saturated_vapor_pressure` (meteorology.py lines 10-31):
sixth-order Campbell Scientific polynomial, scaled by 0.1 (hPa to kPa). -/
def calculate_saturated_vapor_pressure (T : ℝ) : ℝ :=
  (6.107799961 + 4.436518521e-1 * T + 1.428945805e-2 * T ^ 2 + 2.650648471e-4 * T ^ 3 +
      3.031240396e-6 * T ^ 4 + 2.034080948e-8 * T ^ 5 + 6.136820929e-11 * T ^ 6) * 0.1

/-- Embeds `calculate_vapor_pressure` (meteorology.py lines 34-46). -/
def calculate_vapor_pressure (RH esat : ℝ) : ℝ :=
  RH * esat / 100

/-- Embeds `calculate_dewpoint` (meteorology.py lines 49-67): missing (or
non-positive) vapor pressure gives missing, otherwise the inverse Tetens
equation. -/
def calculate_dewpoint (ea : Option ℝ) : Option ℝ :=
  match ea with
  | none => none
  | some x =>
    if x ≤ 0 then none
    else some (241.88 * Real.log (x / 0.61078) / (17.558 - Real.log (x / 0.61078)))

/-- Embeds `calculate_wet_bulb_vapor_pressure` (meteorology.py lines 70-88). -/
def calculate_wet_bulb_vapor_pressure (T Tw SP : ℝ) : ℝ :=
  calculate_saturated_vapor_pressure Tw - 0.000660 * (1 + 0.00115 * Tw) * (T - Tw) * SP

/-- The `for i in range(...)` loop of `calculate_wet_bulb_temperature`
(meteorology.py lines 117-140), by structural recursion on the remaining
iteration count: compute `ewt` and `diff`, damp by 0.5, return on
convergence, return on leaving the `[Td-5, T+5]` bounds (the loop `break`
falls through to `return Tw` with the just-assigned value), else iterate. -/
def wbtLoop (T ea SP Td tol : ℝ) : ℕ → ℝ → ℝ
  | 0, Tw => Tw
  | n + 1, Tw =>
    let ewt := calculate_wet_bulb_vapor_pressure T Tw SP
    let diff := ewt - ea
    let TwNew := Tw - diff * 0.5
    if |TwNew - Tw| < tol then TwNew
    else if TwNew < Td - 5 ∨ T + 5 < TwNew then TwNew
    else wbtLoop T ea SP Td tol n TwNew

/-- Embeds `calculate_wet_bulb_temperature` (meteorology.py lines 91-140)
with explicit `max_iterations` and `tolerance` arguments: missing inputs give
missing, a missing dewpoint gives missing, otherwise the damped fixed-point
iteration started at the dewpoint. -/
def calculate_wet_bulb_temperature_iter (T ea SP : Option ℝ) (maxIterations : ℕ)
    (tol : ℝ) : Option ℝ :=
  match T, ea, SP with
  | some t, some e, some sp =>
    match calculate_dewpoint (some e) with
    | none => none
    | some td => some (wbtLoop t e sp td tol maxIterations td)
  | _, _, _ => none

/-- `calculate_wet_bulb_temperature` at the source's default arguments
`max_iterations=50, tolerance=0.01`, the only values the repository uses. -/
def calculate_wet_bulb_temperature (T ea SP : Option ℝ) : Option ℝ :=
  calculate_wet_bulb_temperature_iter T ea SP 50 0.01

/-- Embeds `calculate_wbgt` (meteorology.py lines 143-162): missing if any
input is missing, else the fixed-weight sum. -/
def calculate_wbgt (black_globe_temp wet_bulb_temp dry_bulb_temp : Option ℝ) :
    Option ℝ :=
  match black_globe_temp, wet_bulb_temp, dry_bulb_temp with
  | some bg, some wb, some db => some (0.2 * bg + 0.7 * wb + 0.1 * db)
  | _, _, _ => none

/-- NaN-strict lift of the saturated-vapor-pressure polynomial, as the
vectorized `calculate_saturated_vapor_pressure(T)` behaves on a NaN entry
(meteorology.py line 190). -/
def esatNaN (T : Option ℝ) : Option ℝ :=
  T.map calculate_saturated_vapor_pressure

/-- NaN-strict lift of `calculate_vapor_pressure`, as `RH * esat / 100`
behaves on NaN entries (meteorology.py line 193). -/
def vaporPressureNaN (RH esat : Option ℝ) : Option ℝ :=
  match RH, esat with
  | some r, some e => some (calculate_vapor_pressure r e)
  | _, _ => none

/-- One row's four required source fields, `AirTC_Avg` (air temperature, °C),
`RH_Avg` (relative humidity, %), `P_Air_Avg` (air pressure, mbar) and
`BGTemp_C_Avg` (black globe temperature, °C); a missing value is `none`. -/
structure MetRow where
  airTC : Option ℝ
  rh : Option ℝ
  pAir : Option ℝ
  bgTemp : Option ℝ

/-- A row together with the five derived fields `esat_kPa, ea_kPa,
dewpoint_C, wet_bulb_C, WBGT_C` appended by the enrichment step. -/
structure EnrichedRow where
  base : MetRow
  esat_kPa : Option ℝ
  ea_kPa : Option ℝ
  dewpoint_C : Option ℝ
  wet_bulb_C : Option ℝ
  WBGT_C : Option ℝ

/-- The per-row computation of `add_meteorological_calculations`
(meteorology.py lines 165-227): pressure converted mbar to kPa by `* 0.1`,
then the five derived fields in dependency order.  The source's
`SP.loc[row.name]` positional lookup always finds the same row (`SP` is
computed from the same frame), so it is the row's own converted pressure. -/
def enrichRow (r : MetRow) : EnrichedRow :=
  let sp := r.pAir.map (fun p => p * 0.1)
  let esat := esatNaN r.airTC
  let ea := vaporPressureNaN r.rh esat
  let dew := calculate_dewpoint ea
  let wb := calculate_wet_bulb_temperature r.airTC ea sp
  let wbgt := calculate_wbgt r.bgTemp wb r.airTC
  ⟨r, esat, ea, dew, wb, wbgt⟩

/-- Embeds `add_meteorological_calculations` (meteorology.py lines 165-227):
every row is enriched independently. -/
def add_meteorological_calculations (rows : List MetRow) : List EnrichedRow :=
  rows.map enrichRow

/-- Follows the spec's words (§4.2, `wetBulbTemperature` steps 4-6), for the
refinement claim: `TwNext = Tw - 0.5 * diff`; return `TwNext` on
convergence; otherwise set `Tw = TwNext` and stop with the last computed `Tw`
when it falls outside the interval `[Td - 5, airTempC + 5]`; return the last
`Tw` when the iterations are exhausted. -/
def specWetBulbLoop (airTempC ea pressureKPa Td tolerance : ℝ) : ℕ → ℝ → ℝ
  | 0, Tw => Tw
  | n + 1, Tw =>
    let ewt := calculate_wet_bulb_vapor_pressure airTempC Tw pressureKPa
    let diff := ewt - ea
    let TwNext := Tw - 0.5 * diff
    if |TwNext - Tw| < tolerance then TwNext
    else if ¬ (Td - 5 ≤ TwNext ∧ TwNext ≤ airTempC + 5) then TwNext
    else specWetBulbLoop airTempC ea pressureKPa Td tolerance n TwNext

/-- Follows the spec's words (§4.2, `wetBulbTemperature` steps 1-3), for the
refinement claim: missing inputs give missing, `Td = dewpoint(ea)` (missing
gives missing), initialize `Tw = Td` and iterate. -/
def specWetBulbTemperature (airTempC ea pressureKPa : Option ℝ)
    (maxIterations : ℕ) (tolerance : ℝ) : Option ℝ :=
  match airTempC, ea, pressureKPa with
  | some t, some e, some sp =>
    match calculate_dewpoint (some e) with
    | none => none
    | some td => some (specWetBulbLoop t e sp td tolerance maxIterations td)
  | _, _, _ => none

end

/-! Lemmas about the sorting step. -/

theorem insertRow_perm (r : Rec) (l : List Rec) : List.Perm (insertRow r l) (r :: l) := by
  induction l with
  | nil => simp [insertRow]
  | cons s l ih =>
    simp only [insertRow]
    split
    · exact List.Perm.refl _
    · exact (ih.cons s).trans (List.Perm.swap r s l)

theorem sortRows_perm (l : List Rec) : List.Perm (sortRows l) l := by
  induction l with
  | nil => simp [sortRows]
  | cons r l ih => exact (insertRow_perm r (sortRows l)).trans (ih.cons r)

theorem mem_sortRows {a : Rec} {l : List Rec} : a ∈ sortRows l ↔ a ∈ l :=
  (sortRows_perm l).mem_iff

theorem mem_insertRow {a r : Rec} {l : List Rec} : a ∈ insertRow r l ↔ a = r ∨ a ∈ l := by
  rw [(insertRow_perm r l).mem_iff, List.mem_cons]

theorem pairwise_insertRow {r : Rec} {l : List Rec}
    (h : l.Pairwise (fun a b => a.ts ≤ b.ts)) :
    (insertRow r l).Pairwise (fun a b => a.ts ≤ b.ts) := by
  induction l with
  | nil => simp [insertRow]
  | cons s l ih =>
    rw [List.pairwise_cons] at h
    simp only [insertRow]
    split
    · rename_i hle
      rw [List.pairwise_cons]
      refine ⟨?_, List.pairwise_cons.mpr h⟩
      intro b hb
      rcases List.mem_cons.mp hb with hb | hb
      · exact hb ▸ hle
      · exact le_trans hle (h.1 b hb)
    · rename_i hgt
      rw [List.pairwise_cons]
      refine ⟨?_, ih h.2⟩
      intro b hb
      rcases mem_insertRow.mp hb with hb | hb
      · exact hb ▸ le_of_not_le hgt
      · exact h.1 b hb

theorem sortRows_sorted (l : List Rec) :
    (sortRows l).Pairwise (fun a b => a.ts ≤ b.ts) := by
  induction l with
  | nil => simp [sortRows]
  | cons r l ih => exact pairwise_insertRow ih

/-! Lemmas about the deduplication step. -/

theorem mem_dedupAux {r : Rec} : ∀ (seen : List ℕ) (l : List Rec),
    r ∈ dedupAux seen l → r ∈ l := by
  intro seen l
  induction l generalizing seen with
  | nil => simp [dedupAux]
  | cons s l ih =>
    simp only [dedupAux]
    split
    · exact fun h => List.mem_cons_of_mem s (ih seen h)
    · intro h
      rcases List.mem_cons.mp h with h | h
      · exact h ▸ List.mem_cons_self s l
      · exact List.mem_cons_of_mem s (ih _ h)

theorem find?_dedupAux : ∀ (seen : List ℕ) (l : List Rec) (t : ℕ), t ∉ seen →
    (dedupAux seen l).find? (fun s => s.ts == t) = l.find? (fun s => s.ts == t) := by
  intro seen l
  induction l generalizing seen with
  | nil => simp [dedupAux]
  | cons r l ih =>
    intro t ht
    simp only [dedupAux]
    split
    · rename_i hseen
      have hrt : (r.ts == t) = false := by
        simp only [beq_eq_false_iff_ne, ne_eq]
        intro h
        exact ht (h ▸ hseen)
      rw [List.find?_cons, hrt, ih seen t ht]
    · rename_i hseen
      by_cases hrt : r.ts = t
      · simp [List.find?_cons, hrt]
      · have hrt' : (r.ts == t) = false := by simp [hrt]
        rw [List.find?_cons, hrt', List.find?_cons, hrt']
        refine ih _ t ?_
        simp only [List.mem_cons, not_or]
        exact ⟨fun h => hrt h.symm, ht⟩

theorem dedupAux_ts_not_seen {x : ℕ} : ∀ (seen : List ℕ) (l : List Rec),
    x ∈ (dedupAux seen l).map Rec.ts → x ∉ seen := by
  intro seen l
  induction l generalizing seen with
  | nil => simp [dedupAux]
  | cons r l ih =>
    simp only [dedupAux]
    split
    · exact ih seen
    · rename_i hseen
      simp only [List.map_cons, List.mem_cons]
      rintro (rfl | h)
      · exact hseen
      · intro hx
        exact ih _ h (List.mem_cons_of_mem _ hx)

theorem dedupAux_ts_nodup : ∀ (seen : List ℕ) (l : List Rec),
    ((dedupAux seen l).map Rec.ts).Nodup := by
  intro seen l
  induction l generalizing seen with
  | nil => simp [dedupAux]
  | cons r l ih =>
    simp only [dedupAux]
    split
    · exact ih seen
    · simp only [List.map_cons, List.nodup_cons]
      refine ⟨fun h => ?_, ih _⟩
      exact dedupAux_ts_not_seen _ l h (List.mem_cons_self _ _)

theorem dedupRows_ts_nodup (l : List Rec) : ((dedupRows l).map Rec.ts).Nodup :=
  dedupAux_ts_nodup [] l

theorem find?_dedupRows (l : List Rec) (t : ℕ) :
    (dedupRows l).find? (fun s => s.ts == t) = l.find? (fun s => s.ts == t) :=
  find?_dedupAux [] l t (List.not_mem_nil t)

theorem mem_dedupRows {r : Rec} {l : List Rec} (h : r ∈ dedupRows l) : r ∈ l :=
  mem_dedupAux [] l h

/-! Lemmas about the column-schema union built by concatenation. -/

theorem mem_foldl_union {c : String} :
    ∀ (rest : List DF) (acc : List String), c ∈ acc →
      c ∈ rest.foldl (fun a d' => a ++ d'.cols.filter (fun x => !a.contains x)) acc := by
  intro rest
  induction rest with
  | nil => exact fun acc h => h
  | cons d rest ih =>
    intro acc h
    exact ih _ (List.mem_append_left _ h)

theorem mem_unionCols {c : String} {first : DF} (rest : List DF)
    (h : c ∈ first.cols) : c ∈ unionCols first rest :=
  mem_foldl_union rest first.cols h

/-! Lemmas about the canonical grid. -/

theorem create_complete_time_index_length {d0 d1 : ℕ} (h : d0 ≤ d1) :
    (create_complete_time_index d0 d1).length = 48 * (d1 - d0 + 1) := by
  have hle : 1440 * d0 ≤ 1440 * d1 + 1410 := by omega
  simp only [create_complete_time_index, date_range, if_pos hle, List.length_map,
    List.length_range]
  omega

theorem create_complete_time_index_head {d0 d1 : ℕ} (h : d0 ≤ d1) :
    (create_complete_time_index d0 d1).head? = some (1440 * d0) := by
  have hle : 1440 * d0 ≤ 1440 * d1 + 1410 := by omega
  simp only [create_complete_time_index, date_range, if_pos hle]
  rw [List.range_succ_eq_map]
  simp

theorem create_complete_time_index_last {d0 d1 : ℕ} (h : d0 ≤ d1) :
    (create_complete_time_index d0 d1).getLast? = some (1440 * d1 + 1410) := by
  have hle : 1440 * d0 ≤ 1440 * d1 + 1410 := by omega
  simp only [create_complete_time_index, date_range, if_pos hle]
  rw [List.range_succ, List.map_append, List.map_singleton, List.getLast?_concat]
  congr 1
  omega

theorem create_complete_time_index_pairwise (d0 d1 : ℕ) :
    (create_complete_time_index d0 d1).Pairwise (· < ·) := by
  simp only [create_complete_time_index, date_range]
  split
  · exact (List.pairwise_lt_range _).map _ (fun a b hab => by omega)
  · exact List.Pairwise.nil


/-! Lemmas about the assembled pipeline. -/

theorem gtci_mem {cols : List String} {c : String}
    (h : get_timestamp_column_info cols = .ok c) : c ∈ cols := by
  unfold get_timestamp_column_info at h
  cases hf : (["TIMESTAMP", "timestamp", "DateTime", "datetime", "TIME", "time"].find?
      (fun c => cols.contains c)) with
  | some c' =>
    rw [hf] at h
    cases h
    have := List.find?_some hf
    exact List.elem_iff.mp this
  | none =>
    rw [hf] at h
    cases cols with
    | nil => cases h
    | cons c' cs =>
      cases h
      exact List.mem_cons_self _ _

theorem gtci_ok_of_ne_nil {cols : List String} (h : cols ≠ []) :
    ∃ c, get_timestamp_column_info cols = .ok c := by
  unfold get_timestamp_column_info
  cases hf : (["TIMESTAMP", "timestamp", "DateTime", "datetime", "TIME", "time"].find?
      (fun c => cols.contains c)) with
  | some c' => exact ⟨c', rfl⟩
  | none =>
    cases cols with
    | nil => exact absurd rfl h
    | cons c' cs => exact ⟨c', rfl⟩

theorem gtci_nil : get_timestamp_column_info [] = .error .noColumns := rfl

theorem merge_cons_eq {first : DF} (rest : List DF) (d0 d1 : ℕ) {c : String}
    (hc : get_timestamp_column_info first.cols = .ok c) :
    merge_daily_data (first :: rest) d0 d1 =
      .ok ⟨unionCols first rest,
        reindexRows (dedupRows (sortRows (((first :: rest).map DF.rows).flatten)))
          (unionCols first rest) c d0 d1⟩ := by
  have hmem : c ∈ unionCols first rest := mem_unionCols rest (gtci_mem hc)
  have hcontains : (unionCols first rest).contains c = true :=
    List.elem_eq_true_of_mem hmem
  simp only [merge_daily_data, hc, concatenate_dataframes, sort_by_timestamp, hcontains,
    if_true, remove_duplicates, reindex_to_complete_grid, dedupRows_ts_nodup]

theorem reindexRows_map_ts (rows : List Rec) (cols : List String) (tsCol : String)
    (d0 d1 : ℕ) :
    (reindexRows rows cols tsCol d0 d1).map Rec.ts = create_complete_time_index d0 d1 := by
  unfold reindexRows
  rw [List.map_map]
  have : ∀ t ∈ create_complete_time_index d0 d1,
      (Rec.ts ∘ fun t => match rows.find? (fun r => r.ts == t) with
        | some r => r
        | none => blankRow cols tsCol t) t = t := by
    intro t _
    simp only [Function.comp]
    cases hf : rows.find? (fun r => r.ts == t) with
    | some r =>
      have := List.find?_some hf
      simpa using this
    | none => rfl
  rw [List.map_congr_left this, List.map_id']

theorem reindexRows_length (rows : List Rec) (cols : List String) (tsCol : String)
    (d0 d1 : ℕ) :
    (reindexRows rows cols tsCol d0 d1).length = (create_complete_time_index d0 d1).length :=
  List.length_map _ _

theorem reindexRows_unmatched {rows : List Rec} {cols : List String} {tsCol : String}
    {d0 d1 : ℕ} {r' : Rec} (hr' : r' ∈ reindexRows rows cols tsCol d0 d1)
    (h : ∀ rec ∈ rows, rec.ts ≠ r'.ts) : ∀ p ∈ r'.vals, p.2 = none := by
  unfold reindexRows at hr'
  obtain ⟨t, _, ht⟩ := List.mem_map.mp hr'
  cases hf : rows.find? (fun r => r.ts == t) with
  | some r =>
    rw [hf] at ht
    exfalso
    have ht' : r = r' := ht
    exact h r (List.mem_of_find?_eq_some hf) (congrArg Rec.ts ht')
  | none =>
    rw [hf] at ht
    subst ht
    intro p hp
    simp only [blankRow, List.mem_map] at hp
    obtain ⟨x, _, hx⟩ := hp
    rw [← hx]

theorem find?_filter_of_mem {rows : List Rec} {g : List ℕ} {t : ℕ} (ht : t ∈ g) :
    (rows.filter (fun r => g.contains r.ts)).find? (fun r => r.ts == t) =
      rows.find? (fun r => r.ts == t) := by
  induction rows with
  | nil => rfl
  | cons r rows ih =>
    rw [List.filter_cons]
    cases hq : g.contains r.ts with
    | false =>
      have hbeq : (r.ts == t) = false := by
        cases hbeq : (r.ts == t)
        · rfl
        · exfalso
          have hrt : r.ts = t := by simpa using hbeq
          have h2 : g.contains t = true := List.elem_eq_true_of_mem ht
          rw [hrt, h2] at hq
          exact Bool.noConfusion hq
      rw [if_neg (by simp [hq]), List.find?_cons, hbeq, ih]
    | true =>
      rw [if_pos (by simp [hq]), List.find?_cons, List.find?_cons]
      cases hbeq : (r.ts == t)
      · show (rows.filter (fun r => g.contains r.ts)).find? (fun r => r.ts == t) = _
        exact ih
      · rfl

/-! The claims. -/

/-- C1: for every non-empty list of input series (whose first series has a
non-empty schema) and every valid date range, the output of merge has exactly
one record per grid slot: its length equals the length of the canonical grid,
its timestamps are strictly ascending with no duplicates covering
`rangeStart 00:00:00` through `rangeEnd 23:30:00` inclusive, and any grid slot
with no input record whose timestamp exactly matches it has every
non-timestamp field missing (the timestamp field itself is always populated,
since the output's timestamps are exactly the grid). -/
theorem claim_C1_merge_grid_invariants (first : DF) (rest : List DF) (d0 d1 : ℕ)
    (hcols : first.cols ≠ []) (hrange : d0 ≤ d1) :
    ∃ out, merge_daily_data (first :: rest) d0 d1 = .ok out ∧
      out.rows.length = (create_complete_time_index d0 d1).length ∧
      out.rows.map Rec.ts = create_complete_time_index d0 d1 ∧
      (out.rows.map Rec.ts).Pairwise (· < ·) ∧
      (out.rows.map Rec.ts).head? = some (1440 * d0) ∧
      (out.rows.map Rec.ts).getLast? = some (1440 * d1 + 1410) ∧
      ∀ r' ∈ out.rows, (∀ df ∈ first :: rest, ∀ rec ∈ df.rows, rec.ts ≠ r'.ts) →
        ∀ p ∈ r'.vals, p.2 = none := by
  obtain ⟨c, hc⟩ := gtci_ok_of_ne_nil hcols
  refine ⟨_, merge_cons_eq rest d0 d1 hc, reindexRows_length _ _ _ _ _,
    reindexRows_map_ts _ _ _ _ _, ?_, ?_, ?_, ?_⟩
  · rw [reindexRows_map_ts]
    exact create_complete_time_index_pairwise d0 d1
  · rw [reindexRows_map_ts]
    exact create_complete_time_index_head hrange
  · rw [reindexRows_map_ts]
    exact create_complete_time_index_last hrange
  · intro r' hr' hno
    refine reindexRows_unmatched hr' ?_
    intro rec hrec
    have hrec2 : rec ∈ (((first :: rest).map DF.rows).flatten) :=
      mem_sortRows.mp (mem_dedupRows hrec)
    obtain ⟨l, hl, hrecl⟩ := List.mem_flatten.mp hrec2
    obtain ⟨df, hdf, rfl⟩ := List.mem_map.mp hl
    exact hno df hdf rec hrecl

/-- Witness for C1 at a one-series, one-day instance. -/
theorem claim_C1_witness :
    (DF.mk ["TIMESTAMP", "value"] [⟨0, [("value", some 1)]⟩]).cols ≠ [] ∧ (0 : ℕ) ≤ 0 ∧
    (∃ out, merge_daily_data [⟨["TIMESTAMP", "value"], [⟨0, [("value", some 1)]⟩]⟩] 0 0 = .ok out ∧
      out.rows.length = (create_complete_time_index 0 0).length ∧
      out.rows.map Rec.ts = create_complete_time_index 0 0 ∧
      (out.rows.map Rec.ts).Pairwise (· < ·) ∧
      (out.rows.map Rec.ts).head? = some (1440 * 0) ∧
      (out.rows.map Rec.ts).getLast? = some (1440 * 0 + 1410) ∧
      ∀ r' ∈ out.rows,
        (∀ df ∈ [(⟨["TIMESTAMP", "value"], [⟨0, [("value", some 1)]⟩]⟩ : DF)],
          ∀ rec ∈ df.rows, rec.ts ≠ r'.ts) →
        ∀ p ∈ r'.vals, p.2 = none) :=
  ⟨by decide, by decide,
    claim_C1_merge_grid_invariants ⟨["TIMESTAMP", "value"], [⟨0, [("value", some 1)]⟩]⟩ [] 0 0
      (by decide) (by decide)⟩

/-- C5: buildCanonicalGrid is a pure function of the requested range (the
grid and the summary's expected row count do not depend on the data): a
single-day range yields exactly 48 timestamps, an N-day range yields 48*N
timestamps running from `rangeStart 00:00:00` to `rangeEnd 23:30:00`, and
`get_merge_summary` reports `expected_rows = 48*N` for every dataframe. -/
theorem claim_C5_canonical_grid (d0 d1 : ℕ) (h : d0 ≤ d1) :
    (create_complete_time_index d0 d0).length = 48 ∧
    (create_complete_time_index d0 d1).length = 48 * (d1 - d0 + 1) ∧
    (create_complete_time_index d0 d1).head? = some (1440 * d0) ∧
    (create_complete_time_index d0 d1).getLast? = some (1440 * d1 + 1410) ∧
    ∀ (df : DF) (tsCol : String),
      (get_merge_summary df tsCol d0 d1).expected_rows = 48 * (d1 - d0 + 1) := by
  refine ⟨?_, create_complete_time_index_length h, create_complete_time_index_head h,
    create_complete_time_index_last h, ?_⟩
  · have := create_complete_time_index_length (le_refl d0)
    simpa using this
  · intro df tsCol
    exact create_complete_time_index_length h

/-- Witness for C5 at the two-day range (days 0 and 1). -/
theorem claim_C5_witness :
    (0 : ℕ) ≤ 1 ∧
    ((create_complete_time_index 0 0).length = 48 ∧
      (create_complete_time_index 0 1).length = 48 * (1 - 0 + 1) ∧
      (create_complete_time_index 0 1).head? = some (1440 * 0) ∧
      (create_complete_time_index 0 1).getLast? = some (1440 * 1 + 1410) ∧
      ∀ (df : DF) (tsCol : String),
        (get_merge_summary df tsCol 0 1).expected_rows = 48 * (1 - 0 + 1)) :=
  ⟨by decide, claim_C5_canonical_grid 0 1 (by decide)⟩

/-- C10: reindexing silently discards input records whose timestamps do not
exactly coincide with a grid slot: on a deduplicated series, reindexing
raises no error and its result is unchanged when all off-grid records are
removed first — off-grid records contribute nothing to the output. -/
theorem claim_C10_offgrid_discarded (df : DF) (tsCol : String) (d0 d1 : ℕ)
    (hcol : tsCol ∈ df.cols) (hnodup : (df.rows.map Rec.ts).Nodup) :
    (∃ out, reindex_to_complete_grid df tsCol d0 d1 = .ok out) ∧
    reindex_to_complete_grid df tsCol d0 d1 =
      reindex_to_complete_grid
        ⟨df.cols, df.rows.filter (fun r => (create_complete_time_index d0 d1).contains r.ts)⟩
        tsCol d0 d1 := by
  have hcont : df.cols.contains tsCol = true := List.elem_eq_true_of_mem hcol
  have hsub : ((df.rows.filter
      (fun r => (create_complete_time_index d0 d1).contains r.ts)).map Rec.ts).Nodup :=
    hnodup.sublist ((List.filter_sublist _).map _)
  constructor
  · refine ⟨⟨df.cols, reindexRows df.rows df.cols tsCol d0 d1⟩, ?_⟩
    unfold reindex_to_complete_grid
    rw [if_pos hcont, if_pos hnodup]
  · unfold reindex_to_complete_grid
    rw [if_pos hcont, if_pos hnodup, if_pos hcont, if_pos hsub]
    congr 1
    unfold reindexRows
    refine congrArg _ (List.map_congr_left ?_).symm
    intro t ht
    rw [find?_filter_of_mem ht]

/-- Witness for C10 at a series holding one on-grid and one off-grid (00:15)
record. -/
theorem claim_C10_witness :
    "TIMESTAMP" ∈ (DF.mk ["TIMESTAMP", "value"]
      [⟨0, [("value", some 1)]⟩, ⟨15, [("value", some 2)]⟩]).cols ∧
    (((DF.mk ["TIMESTAMP", "value"]
      [⟨0, [("value", some 1)]⟩, ⟨15, [("value", some 2)]⟩]).rows.map Rec.ts).Nodup) ∧
    ((∃ out, reindex_to_complete_grid
        ⟨["TIMESTAMP", "value"], [⟨0, [("value", some 1)]⟩, ⟨15, [("value", some 2)]⟩]⟩
        "TIMESTAMP" 0 0 = .ok out) ∧
      reindex_to_complete_grid
        ⟨["TIMESTAMP", "value"], [⟨0, [("value", some 1)]⟩, ⟨15, [("value", some 2)]⟩]⟩
        "TIMESTAMP" 0 0 =
      reindex_to_complete_grid
        ⟨["TIMESTAMP", "value"],
          ((DF.mk ["TIMESTAMP", "value"]
            [⟨0, [("value", some 1)]⟩, ⟨15, [("value", some 2)]⟩]).rows.filter
            (fun r => (create_complete_time_index 0 0).contains r.ts))⟩
        "TIMESTAMP" 0 0) :=
  ⟨by decide, by decide,
    claim_C10_offgrid_discarded
      ⟨["TIMESTAMP", "value"], [⟨0, [("value", some 1)]⟩, ⟨15, [("value", some 2)]⟩]⟩
      "TIMESTAMP" 0 0 (by decide) (by decide)⟩

/-! Lemmas about the wet-bulb solver. -/

theorem wbtLoop_eq_specLoop (T ea SP Td tol : ℝ) :
    ∀ (n : ℕ) (Tw : ℝ), wbtLoop T ea SP Td tol n Tw = specWetBulbLoop T ea SP Td tol n Tw := by
  intro n
  induction n with
  | zero => intro Tw; rfl
  | succ n ih =>
    intro Tw
    simp only [wbtLoop, specWetBulbLoop]
    have hmul : Tw - (calculate_wet_bulb_vapor_pressure T Tw SP - ea) * 0.5 =
        Tw - 0.5 * (calculate_wet_bulb_vapor_pressure T Tw SP - ea) := by ring
    rw [hmul]
    have hiff : (Tw - 0.5 * (calculate_wet_bulb_vapor_pressure T Tw SP - ea) < Td - 5 ∨
        T + 5 < Tw - 0.5 * (calculate_wet_bulb_vapor_pressure T Tw SP - ea)) ↔
        ¬ (Td - 5 ≤ Tw - 0.5 * (calculate_wet_bulb_vapor_pressure T Tw SP - ea) ∧
          Tw - 0.5 * (calculate_wet_bulb_vapor_pressure T Tw SP - ea) ≤ T + 5) := by
      rw [not_and_or, not_le, not_le]
    simp only [hiff, ih]

set_option maxHeartbeats 1000000 in
/-- At air temperature 25 °C, vapor pressure `esat(25)` (relative humidity
exactly 100%) and pressure 100 kPa, the solver converges at the first
iteration to `Td - diff/2` where `Td = dewpoint(esat(25)) ≈ 25.0174` exceeds
the air temperature (the Campbell esat polynomial and the inverse Tetens
dewpoint are different approximations, and near saturation their mismatch
puts the dewpoint above the dry-bulb temperature), so the result lies
strictly between `airTempC + tolerance` and the dewpoint. -/
theorem wet_bulb_saturation_25 :
    calculate_saturated_vapor_pressure 25 = 64858823169893/20480000000000 ∧
    ∃ td w : ℝ,
      calculate_dewpoint (some (64858823169893/20480000000000)) = some td ∧
      calculate_wet_bulb_temperature (some 25) (some (64858823169893/20480000000000))
        (some 100) = some w ∧
      25 + 0.01 < w ∧ td - 0.01 ≤ w ∧ w < td := by
  have hesat : calculate_saturated_vapor_pressure 25 = 64858823169893/20480000000000 := by
    unfold calculate_saturated_vapor_pressure
    norm_num
  refine ⟨hesat, ?_⟩
  have hx : |(-(14823725569893/50035097600000) : ℝ)| < 1 := by
    rw [abs_neg, abs_of_nonneg (by norm_num : (0:ℝ) ≤ 14823725569893/50035097600000)]
    norm_num
  have z := Real.abs_log_sub_add_sum_range_le hx 10
  simp only [Finset.sum_range_succ, Finset.sum_range_zero] at z
  rw [abs_neg, abs_of_nonneg (by norm_num : (0:ℝ) ≤ 14823725569893/50035097600000)] at z
  norm_num at z
  rw [abs_le] at z
  have hlogc1 : (0.259485941 : ℝ) < Real.log (64858823169893/50035097600000) := by
    linarith [z.1]
  have hlogc2 : Real.log ((64858823169893:ℝ)/50035097600000) < 0.259490329 := by
    linarith [z.2]
  have hsplit : Real.log ((64858823169893/20480000000000 : ℝ) / 0.61078) =
      Real.log 4 + Real.log (64858823169893/50035097600000) := by
    rw [show ((64858823169893/20480000000000 : ℝ) / 0.61078) =
      4 * (64858823169893/50035097600000) by norm_num]
    rw [Real.log_mul (by norm_num) (by norm_num)]
  have hlog4 : Real.log (4:ℝ) = 2 * Real.log 2 := by
    rw [show (4:ℝ) = 2^2 by norm_num, Real.log_pow]
    push_cast
    ring
  have hL1 : (1.6457803 : ℝ) < Real.log ((64858823169893/20480000000000 : ℝ) / 0.61078) := by
    rw [hsplit, hlog4]
    linarith [Real.log_two_gt_d9]
  have hL2 : Real.log ((64858823169893/20480000000000 : ℝ) / 0.61078) < 1.6457847 := by
    rw [hsplit, hlog4]
    linarith [Real.log_two_lt_d9]
  set L := Real.log ((64858823169893/20480000000000 : ℝ) / 0.61078) with hLdef
  have hdew : calculate_dewpoint (some ((64858823169893/20480000000000 : ℝ))) =
      some (241.88 * L / (17.558 - L)) := by
    simp only [calculate_dewpoint]
    rw [if_neg (by norm_num : ¬ ((64858823169893/20480000000000 : ℝ) ≤ 0))]
  set Td := 241.88 * L / (17.558 - L) with hTddef
  have hden : (0:ℝ) < 17.558 - L := by linarith
  have hTdlo : (25.01733 : ℝ) < Td := by
    rw [hTddef, lt_div_iff₀ hden]
    linarith
  have hTdhi : Td < 25.01741 := by
    rw [hTddef, div_lt_iff₀ hden]
    linarith
  have hTd0 : (0:ℝ) ≤ Td := by linarith
  have hTd0' : (0:ℝ) ≤ (25.01733:ℝ) := by norm_num
  have hp2 : Td^2 < 25.01741^2 := pow_lt_pow_left₀ hTdhi hTd0 (by norm_num)
  have hp3 : Td^3 < 25.01741^3 := pow_lt_pow_left₀ hTdhi hTd0 (by norm_num)
  have hp4 : Td^4 < 25.01741^4 := pow_lt_pow_left₀ hTdhi hTd0 (by norm_num)
  have hp5 : Td^5 < 25.01741^5 := pow_lt_pow_left₀ hTdhi hTd0 (by norm_num)
  have hp6 : Td^6 < 25.01741^6 := pow_lt_pow_left₀ hTdhi hTd0 (by norm_num)
  have hq2 : (25.01733:ℝ)^2 < Td^2 := pow_lt_pow_left₀ hTdlo hTd0' (by norm_num)
  have hq3 : (25.01733:ℝ)^3 < Td^3 := pow_lt_pow_left₀ hTdlo hTd0' (by norm_num)
  have hq4 : (25.01733:ℝ)^4 < Td^4 := pow_lt_pow_left₀ hTdlo hTd0' (by norm_num)
  have hq5 : (25.01733:ℝ)^5 < Td^5 := pow_lt_pow_left₀ hTdlo hTd0' (by norm_num)
  have hq6 : (25.01733:ℝ)^6 < Td^6 := pow_lt_pow_left₀ hTdlo hTd0' (by norm_num)
  have hdlo : (0.004 : ℝ) <
      calculate_wet_bulb_vapor_pressure 25 Td 100 - 64858823169893/20480000000000 := by
    unfold calculate_wet_bulb_vapor_pressure calculate_saturated_vapor_pressure
    nlinarith [hTdlo, hTdhi, hp2, hq2, hp3, hq3, hp4, hq4, hp5, hq5, hp6, hq6]
  have hdhi :
      calculate_wet_bulb_vapor_pressure 25 Td 100 - 64858823169893/20480000000000
        < 0.005 := by
    unfold calculate_wet_bulb_vapor_pressure calculate_saturated_vapor_pressure
    nlinarith [hTdlo, hTdhi, hp2, hq2, hp3, hq3, hp4, hq4, hp5, hq5, hp6, hq6]
  have hconv : |Td - (calculate_wet_bulb_vapor_pressure 25 Td 100 -
      64858823169893/20480000000000) * 0.5 - Td| < 0.01 := by
    have heq : Td - (calculate_wet_bulb_vapor_pressure 25 Td 100 -
        64858823169893/20480000000000) * 0.5 - Td =
        -((calculate_wet_bulb_vapor_pressure 25 Td 100 -
          64858823169893/20480000000000) * 0.5) := by ring
    rw [heq, abs_neg, abs_of_pos (by linarith)]
    linarith
  have hloop : wbtLoop 25 (64858823169893/20480000000000) 100 Td 0.01 50 Td =
      Td - (calculate_wet_bulb_vapor_pressure 25 Td 100 -
        64858823169893/20480000000000) * 0.5 := by
    rw [show (50:ℕ) = 49 + 1 from rfl]
    simp only [wbtLoop]
    rw [if_pos hconv]
  have hwb : calculate_wet_bulb_temperature (some 25)
      (some (64858823169893/20480000000000)) (some 100) =
      some (Td - (calculate_wet_bulb_vapor_pressure 25 Td 100 -
        64858823169893/20480000000000) * 0.5) := by
    simp only [calculate_wet_bulb_temperature, calculate_wet_bulb_temperature_iter, hdew,
      hloop]
  refine ⟨Td, _, hdew, hwb, ?_, ?_, ?_⟩
  · linarith
  · linarith
  · linarith

/-- C9 counterexample: at the physically valid input airTempC = 25 °C,
ea = esat(25) (relative humidity exactly 100%), pressure 100 kPa, the solver
returns a numeric value exceeding airTempC + tolerance, refuting
`wetBulbTemperature(...) <= airTempC` within the solver tolerance. -/
theorem claim_C9_counterexample :
    (0:ℝ) < 64858823169893/20480000000000 ∧
    (64858823169893/20480000000000 : ℝ) = calculate_saturated_vapor_pressure 25 ∧
    calculate_wet_bulb_temperature (some 25) (some (64858823169893/20480000000000))
      (some 100) ≠ none ∧
    25 + 0.01 < (calculate_wet_bulb_temperature (some 25)
      (some (64858823169893/20480000000000)) (some 100)).getD 0 := by
  obtain ⟨hesat, td, w, hdew, hwb, hgt, hge, hlt⟩ := wet_bulb_saturation_25
  refine ⟨by norm_num, hesat.symm, ?_, ?_⟩
  · rw [hwb]
    simp
  · rw [hwb, Option.getD_some]
    exact hgt

/-- C9 (amended): wetBulbTemperature is deterministic (identical inputs give
identical results), but the bracket `dewpoint(ea) <= result <= airTempC`
within solver tolerance does not hold for all physically valid inputs with
humidity in [0,100]: at airTempC = 25 °C, ea = esat(25) (humidity 100%),
pressure 100 kPa the result exceeds airTempC + tolerance, lying within the
tolerance below the dewpoint instead. -/
theorem claim_C9_amended :
    (∀ (T ea SP : Option ℝ) (w1 w2 : ℝ),
      calculate_wet_bulb_temperature T ea SP = some w1 →
      calculate_wet_bulb_temperature T ea SP = some w2 → w1 = w2) ∧
    (∃ Tval eaval SPval td w : ℝ,
      0 < eaval ∧ eaval = calculate_saturated_vapor_pressure Tval ∧
      calculate_dewpoint (some eaval) = some td ∧
      calculate_wet_bulb_temperature (some Tval) (some eaval) (some SPval) = some w ∧
      Tval + 0.01 < w ∧ td - 0.01 ≤ w ∧ w < td) := by
  constructor
  · intro T ea SP w1 w2 h1 h2
    rw [h1] at h2
    exact Option.some_inj.mp h2
  · obtain ⟨hesat, td, w, hdew, hwb, hgt, hge, hlt⟩ := wet_bulb_saturation_25
    exact ⟨25, _, 100, td, w, by norm_num, hesat.symm, hdew, hwb, hgt, hge, hlt⟩

/-- C2: the wet-bulb solver computes exactly the iteration specified in §4.2
of the spec (same damping, convergence test, bounds test, early returns and
iteration cap, for every iteration cap and tolerance), and it always returns
a value: the result is missing exactly when an input or the initial dewpoint
is missing, and numeric otherwise; being a total function, it terminates on
every input and raises nothing. -/
theorem claim_C2_wet_bulb_solver :
    (∀ (T ea SP : Option ℝ) (maxIterations : ℕ) (tolerance : ℝ),
      calculate_wet_bulb_temperature_iter T ea SP maxIterations tolerance =
        specWetBulbTemperature T ea SP maxIterations tolerance) ∧
    (∀ T ea SP : Option ℝ,
      calculate_wet_bulb_temperature T ea SP = none ↔
        T = none ∨ ea = none ∨ SP = none ∨ calculate_dewpoint ea = none) := by
  constructor
  · intro T ea SP n tol
    cases T with
    | none => rfl
    | some t =>
      cases ea with
      | none => rfl
      | some e =>
        cases SP with
        | none => rfl
        | some sp =>
          simp only [calculate_wet_bulb_temperature_iter, specWetBulbTemperature]
          cases hd : calculate_dewpoint (some e) with
          | none => simp only [hd]
          | some td => simp only [hd, wbtLoop_eq_specLoop]
  · intro T ea SP
    cases T with
    | none => simp [calculate_wet_bulb_temperature, calculate_wet_bulb_temperature_iter]
    | some t =>
      cases ea with
      | none => simp [calculate_wet_bulb_temperature, calculate_wet_bulb_temperature_iter]
      | some e =>
        cases SP with
        | none => simp [calculate_wet_bulb_temperature, calculate_wet_bulb_temperature_iter]
        | some sp =>
          simp only [calculate_wet_bulb_temperature, calculate_wet_bulb_temperature_iter]
          cases hd : calculate_dewpoint (some e) with
          | none => simp [hd]
          | some td => simp [hd]

/-- C7 counterexample: a record missing only the required source field
`BGTemp_C_Avg` does not have all derived fields missing — its `esat_kPa` is
numeric — refuting the claim that a record missing any required source field
has every derived field missing. -/
theorem claim_C7_counterexample :
    (add_meteorological_calculations [⟨some 20, some 50, some 1000, none⟩]).map
      (fun er => er.esat_kPa) = [some (calculate_saturated_vapor_pressure 20)] ∧
    (some (calculate_saturated_vapor_pressure 20) : Option ℝ) ≠ none :=
  ⟨rfl, by simp⟩

/-- C7 (amended): missing values short-circuit every meteorological formula —
each formula returns missing when any of its own operands is missing, and
never raises; `dewpoint` is missing exactly on missing or non-positive vapor
pressure; in enrich, a record missing `AirTC_Avg` has all five derived fields
missing, each derived field is missing whenever one of its own inputs is
missing, and records are processed independently, leaving all other records
unaffected. -/
theorem claim_C7_missing_propagation_amended :
    esatNaN none = none ∧
    (∀ e : Option ℝ, vaporPressureNaN none e = none) ∧
    (∀ r : Option ℝ, vaporPressureNaN r none = none) ∧
    calculate_dewpoint none = none ∧
    (∀ x : ℝ, (calculate_dewpoint (some x) = none ↔ x ≤ 0)) ∧
    (∀ ea SP : Option ℝ, calculate_wet_bulb_temperature none ea SP = none) ∧
    (∀ T SP : Option ℝ, calculate_wet_bulb_temperature T none SP = none) ∧
    (∀ T ea : Option ℝ, calculate_wet_bulb_temperature T ea none = none) ∧
    (∀ w t : Option ℝ, calculate_wbgt none w t = none) ∧
    (∀ b t : Option ℝ, calculate_wbgt b none t = none) ∧
    (∀ b w : Option ℝ, calculate_wbgt b w none = none) ∧
    (∀ rh p bg : Option ℝ, enrichRow ⟨none, rh, p, bg⟩ =
      ⟨⟨none, rh, p, bg⟩, none, none, none, none, none⟩) ∧
    (∀ rows1 rows2 : List MetRow, add_meteorological_calculations (rows1 ++ rows2) =
      add_meteorological_calculations rows1 ++ add_meteorological_calculations rows2) := by
  refine ⟨rfl, ?_, ?_, rfl, ?_, ?_, ?_, ?_, ?_, ?_, ?_, ?_, ?_⟩
  · intro e
    cases e <;> rfl
  · intro r
    cases r <;> rfl
  · intro x
    simp only [calculate_dewpoint]
    by_cases h : x ≤ 0
    · rw [if_pos h]
      exact iff_of_true rfl h
    · rw [if_neg h]
      exact iff_of_false (by simp) h
  · intro ea SP
    cases ea <;> cases SP <;> rfl
  · intro T SP
    cases T <;> cases SP <;> rfl
  · intro T ea
    cases T <;> cases ea <;> rfl
  · intro w t
    cases w <;> cases t <;> rfl
  · intro b t
    cases b <;> cases t <;> rfl
  · intro b w
    cases b <;> cases w <;> rfl
  · intro rh p bg
    cases rh <;> cases p <;> cases bg <;> rfl
  · intro rows1 rows2
    simp [add_meteorological_calculations]

/-- C8 counterexample: `wbgt(30, 20, 25)` is 22.5, not the 23.0 the claim
asserts: `0.2*30 + 0.7*20 + 0.1*25 = 6 + 14 + 2.5 = 22.5`. -/
theorem claim_C8_counterexample :
    calculate_wbgt (some 30) (some 20) (some 25) = some 22.5 ∧
    calculate_wbgt (some 30) (some 20) (some 25) ≠ some 23 := by
  unfold calculate_wbgt
  constructor
  · norm_num
  · simp only [ne_eq, Option.some_inj]
    norm_num

/-- C8 (amended): for all non-missing numeric inputs,
`wbgt(BG, Tw, T) = 0.2*BG + 0.7*Tw + 0.1*T` exactly; in particular
`wbgt(30, 20, 25) = 22.5`. -/
theorem claim_C8_wbgt_amended :
    (∀ bg tw t : ℝ, calculate_wbgt (some bg) (some tw) (some t) =
      some (0.2 * bg + 0.7 * tw + 0.1 * t)) ∧
    calculate_wbgt (some 30) (some 20) (some 25) = some 22.5 := by
  refine ⟨fun bg tw t => rfl, ?_⟩
  unfold calculate_wbgt
  norm_num

/-- C6 counterexample: a non-empty series list whose first frame has an empty
schema makes merge raise the distinct "No columns found in header" error —
neither `EmptyInputError` nor `MissingFieldError` — refuting the claim that
no other exception is raised by the merge pipeline on any input. -/
theorem claim_C6_counterexample :
    merge_daily_data [⟨[], []⟩] 0 0 = .error .noColumns ∧
    MergeError.noColumns ≠ MergeError.emptyInput ∧
    MergeError.noColumns ≠ MergeError.missingField ∧
    ([(⟨[], []⟩ : DF)] : List DF) ≠ [] :=
  ⟨rfl, by decide, by decide, by decide⟩

/-- C6 (amended): merge raises `EmptyInputError` exactly on the empty series
list; `sortByTimestamp` and reindex raise `MissingFieldError` exactly when
the designated timestamp field is absent from the schema; the pipeline
propagates these unmodified and raises nothing else — except that a
non-empty list whose first frame has no columns raises the distinct
no-columns error; every other input merges successfully. -/
theorem claim_C6_structural_errors_amended (dfs : List DF) (d0 d1 : ℕ)
    (df : DF) (tsCol : String) :
    (merge_daily_data dfs d0 d1 = .error .emptyInput ↔ dfs = []) ∧
    (merge_daily_data dfs d0 d1 = .error .noColumns ↔
      ∃ rows rest, dfs = ⟨[], rows⟩ :: rest) ∧
    merge_daily_data dfs d0 d1 ≠ .error .missingField ∧
    merge_daily_data dfs d0 d1 ≠ .error .duplicateAxis ∧
    ((∃ out, merge_daily_data dfs d0 d1 = .ok out) ↔
      ∃ first rest, dfs = first :: rest ∧ first.cols ≠ []) ∧
    (sort_by_timestamp df tsCol = .error .missingField ↔ tsCol ∉ df.cols) ∧
    sort_by_timestamp df tsCol ≠ .error .emptyInput ∧
    sort_by_timestamp df tsCol ≠ .error .noColumns ∧
    sort_by_timestamp df tsCol ≠ .error .duplicateAxis ∧
    (reindex_to_complete_grid df tsCol d0 d1 = .error .missingField ↔ tsCol ∉ df.cols) := by
  have hmerge : (merge_daily_data dfs d0 d1 = .error .emptyInput ↔ dfs = []) ∧
      (merge_daily_data dfs d0 d1 = .error .noColumns ↔
        ∃ rows rest, dfs = ⟨[], rows⟩ :: rest) ∧
      merge_daily_data dfs d0 d1 ≠ .error .missingField ∧
      merge_daily_data dfs d0 d1 ≠ .error .duplicateAxis ∧
      ((∃ out, merge_daily_data dfs d0 d1 = .ok out) ↔
        ∃ first rest, dfs = first :: rest ∧ first.cols ≠ []) := by
    cases dfs with
    | nil =>
      refine ⟨iff_of_true rfl rfl, iff_of_false (by simp [merge_daily_data]) ?_,
        by simp [merge_daily_data], by simp [merge_daily_data],
        iff_of_false (by simp [merge_daily_data]) ?_⟩
      · rintro ⟨rows, rest, h⟩
        cases h
      · rintro ⟨first, rest, h, -⟩
        cases h
    | cons first rest =>
      obtain ⟨fc, frows⟩ := first
      cases fc with
      | nil =>
        have hm : merge_daily_data (⟨[], frows⟩ :: rest) d0 d1 = .error .noColumns := rfl
        rw [hm]
        refine ⟨iff_of_false (by simp) (by simp), iff_of_true rfl ⟨frows, rest, rfl⟩,
          by simp, by simp, iff_of_false (by simp) ?_⟩
        rintro ⟨f', r', heq, hne⟩
        cases heq
        exact hne rfl
      | cons c cs =>
        have hcols : (DF.mk (c :: cs) frows).cols ≠ [] := by simp
        obtain ⟨tc, htc⟩ := gtci_ok_of_ne_nil hcols
        have hm := merge_cons_eq rest d0 d1 htc
        rw [hm]
        refine ⟨iff_of_false (by simp) (by simp), iff_of_false (by simp) ?_,
          by simp, by simp, iff_of_true ⟨_, rfl⟩ ⟨⟨c :: cs, frows⟩, rest, rfl, hcols⟩⟩
        rintro ⟨rows', rest', heq⟩
        cases heq
  have hrest : (sort_by_timestamp df tsCol = .error .missingField ↔ tsCol ∉ df.cols) ∧
      sort_by_timestamp df tsCol ≠ .error .emptyInput ∧
      sort_by_timestamp df tsCol ≠ .error .noColumns ∧
      sort_by_timestamp df tsCol ≠ .error .duplicateAxis ∧
      (reindex_to_complete_grid df tsCol d0 d1 = .error .missingField ↔ tsCol ∉ df.cols) := by
    cases hcont : df.cols.contains tsCol with
    | true =>
      have hmem : tsCol ∈ df.cols := List.elem_iff.mp hcont
      have hs : sort_by_timestamp df tsCol = .ok ⟨df.cols, sortRows df.rows⟩ := by
        unfold sort_by_timestamp
        rw [if_pos hcont]
      have hr : reindex_to_complete_grid df tsCol d0 d1 ≠ .error .missingField := by
        unfold reindex_to_complete_grid
        rw [if_pos hcont]
        split_ifs <;> simp
      exact ⟨iff_of_false (by rw [hs]; simp) (fun hn => hn hmem),
        by rw [hs]; simp, by rw [hs]; simp, by rw [hs]; simp,
        iff_of_false hr (fun hn => hn hmem)⟩
    | false =>
      have hmem : tsCol ∉ df.cols := by
        intro h
        have h2 : df.cols.contains tsCol = true := List.elem_eq_true_of_mem h
        rw [h2] at hcont
        exact Bool.noConfusion hcont
      have hcont' : ¬ (df.cols.contains tsCol = true) := by
        rw [hcont]
        exact Bool.noConfusion
      have hs : sort_by_timestamp df tsCol = .error .missingField := by
        unfold sort_by_timestamp
        rw [if_neg hcont']
      have hr : reindex_to_complete_grid df tsCol d0 d1 = .error .missingField := by
        unfold reindex_to_complete_grid
        rw [if_neg hcont']
      exact ⟨iff_of_true hs hmem, by rw [hs]; simp, by rw [hs]; simp, by rw [hs]; simp,
        iff_of_true hr hmem⟩
  exact ⟨hmerge.1, hmerge.2.1, hmerge.2.2.1, hmerge.2.2.2.1, hmerge.2.2.2.2,
    hrest.1, hrest.2.1, hrest.2.2.1, hrest.2.2.2.1, hrest.2.2.2.2⟩

end BiobasisMerge
